import Mathlib

/-!
A shallow embedding of the staged YouTube audio-extraction pipeline:
the `YouTubeService` URL validation and video-id extraction, the
`AudioProcessingService` ffmpeg wrappers, and the `AudioExtractionService`
orchestrator (`extractAndCleanAudio`, `quickExtract`, `cleanupTempFiles`).

External collaborators (the filesystem, youtube-dl and ffmpeg) are modelled
by an `Oracle` of outcome functions; a run of the orchestrator is a pure
function of the oracle, the configuration, the job identity (uuid and
timestamp, drawn once per job in the source) and the input URL, returning
the aggregated job result together with the ordered trace of external
invocations the run performed.
-/

namespace AudioPipeline

/-! ## JS regular-expression matchers used by youtubeService.js

The two validation regexes and the id-extraction regexes are small enough
to embed directly, with JS backtracking semantics made explicit: optional
groups produce the list of candidate remainders, alternations are tried in
source order, and unanchored search scans positions left to right. -/

/-- JS regex character class `[\w-]`: ASCII letters, digits, underscore, dash. -/
def isWordDash (c : Char) : Bool :=
  c.isAlphanum || c = '_' || c = '-'

/-- JS regex `.` (dot, no `s` flag): any character except a line terminator. -/
def isDotChar (c : Char) : Bool :=
  !(c = '\n' || c = '\r' || c = '\u2028' || c = '\u2029')

/-- Consume a literal from the front of a character list. -/
def dropLit : List Char → List Char → Option (List Char)
  | [], cs => some cs
  | _ :: _, [] => none
  | l :: ls, c :: cs => if c = l then dropLit ls cs else none

/-- The candidate remainders after one optional literal group `(lit)?`. -/
def litRem (lit : String) (cs : List Char) : List (List Char) :=
  (match dropLit lit.data cs with
   | some r => [r]
   | none => []) ++ [cs]

/-- Remainders after the optional protocol group `(https?:\/\/)?`. -/
def protoRemainders (cs : List Char) : List (List Char) :=
  (match dropLit "https://".data cs with
   | some r => [r]
   | none => []) ++
  (match dropLit "http://".data cs with
   | some r => [r]
   | none => []) ++ [cs]

/-- Remainders after the optional group `(www\.)?`. -/
def wwwRemainders (cs : List Char) : List (List Char) :=
  litRem "www." cs

/-- `[\w-]+` followed by an unanchored tail: at least one word/dash char. -/
def headWordDash : List Char → Bool
  | [] => false
  | c :: _ => isWordDash c

/-- Tail of validation pattern 1: `(youtube\.com\/watch\?v=|youtu\.be\/)[\w-]+`. -/
def tailPattern1 (cs : List Char) : Bool :=
  (match dropLit "youtube.com/watch?v=".data cs with
   | some r => headWordDash r
   | none => false) ||
  (match dropLit "youtu.be/".data cs with
   | some r => headWordDash r
   | none => false)

/-- `.*v=[\w-]+` with backtracking: at each position either match `v=[\w-]`
here, or let `.*` consume the current (dot-matchable) character. -/
def dotStarVEq : List Char → Bool
  | [] => false
  | c :: rest =>
    (c = 'v' && (match rest with
                 | '=' :: d :: _ => isWordDash d
                 | _ => false))
    || (isDotChar c && dotStarVEq rest)

/-- Tail of validation pattern 2: `youtube\.com\/watch\?.*v=[\w-]+`. -/
def tailPattern2 (cs : List Char) : Bool :=
  match dropLit "youtube.com/watch?".data cs with
  | some r => dotStarVEq r
  | none => false

/-- First accepted URL shape of `isValidYouTubeUrl` (part_008 line 109):
`^(https?:\/\/)?(www\.)?(youtube\.com\/watch\?v=|youtu\.be\/)[\w-]+`. -/
def matchesPattern1 (url : String) : Bool :=
  (protoRemainders url.data).any fun r1 => (wwwRemainders r1).any tailPattern1

/-- Second accepted URL shape of `isValidYouTubeUrl` (part_008 line 110):
`^(https?:\/\/)?(www\.)?youtube\.com\/watch\?.*v=[\w-]+`. -/
def matchesPattern2 (url : String) : Bool :=
  (protoRemainders url.data).any fun r1 => (wwwRemainders r1).any tailPattern2

/-- `YouTubeService.isValidYouTubeUrl` (part_008 lines 107-114): the URL is
valid iff some pattern of the two-element pattern array tests true. -/
def isValidYouTubeUrl (url : String) : Bool :=
  [matchesPattern1, matchesPattern2].any fun p => p url

/-! ### extractVideoId -/

/-- Greedy capture group `([^&\?\/]+)` (maximal run, possibly empty here;
emptiness is rejected by the caller). -/
def captureChars (cs : List Char) : List Char :=
  cs.takeWhile fun c => !(c = '&' || c = '?' || c = '/')

/-- Try one alternative `lit([^&\?\/]+)` at the current position. -/
def tryLitCapture (lit : String) (cs : List Char) : Option String :=
  match dropLit lit.data cs with
  | some r =>
    let cap := captureChars r
    if cap.isEmpty then none else some (String.mk cap)
  | none => none

/-- Try the alternatives of one regex in source order at the current position. -/
def tryAnyLit : List String → List Char → Option String
  | [], _ => none
  | l :: ls, cs =>
    match tryLitCapture l cs with
    | some r => some r
    | none => tryAnyLit ls cs

/-- Leftmost unanchored search: scan positions left to right, trying every
alternative at each position before advancing. -/
def searchLits (lits : List String) : List Char → Option String
  | [] => none
  | c :: rest =>
    match tryAnyLit lits (c :: rest) with
    | some r => some r
    | none => searchLits lits rest

/-- `YouTubeService.extractVideoId` (part_008 lines 121-135): the first
pattern `(?:youtube\.com\/watch\?v=|youtu\.be\/)([^&\?\/]+)` is searched
first over the whole URL; only if it matches nowhere is the embed pattern
`youtube\.com\/embed\/([^&\?\/]+)` tried; otherwise the result is null. -/
def extractVideoId (url : String) : Option String :=
  match searchLits ["youtube.com/watch?v=", "youtu.be/"] url.data with
  | some m => some m
  | none => searchLits ["youtube.com/embed/"] url.data

/-! ## Data model -/

/-- `config.audio` (config.js lines 15-28). -/
structure AudioConfig where
  defaultFormat : String
  sampleRate : Int
  channels : Int
  bitDepth : Int
  highPassFilter : Int
  lowPassFilter : Int
  silenceThreshold : Int
deriving DecidableEq

/-- The parts of `config` (config.js) the pipeline reads. -/
structure Config where
  tempDir : String
  outputDir : String
  audio : AudioConfig
deriving DecidableEq

/-- Source metadata returned by the download engine's json dump and projected
into `downloadResult.metadata` (part_008 lines 51-57). -/
structure SourceMetadata where
  title : String
  duration : Int
  uploader : String
  uploadDate : String
  description : String
deriving DecidableEq

/-- The uniform outcome of `YouTubeService.downloadAudio`. -/
structure DownloadOutcome where
  success : Bool
  filePath : Option String
  error : Option String
  metadata : Option SourceMetadata
deriving DecidableEq

/-- The uniform `{success, filePath?, error?}` outcome of every
`AudioProcessingService` transcoding method. -/
structure ProcResult where
  success : Bool
  filePath : Option String
  error : Option String
deriving DecidableEq

/-- `getAudioMetadata`'s metadata record (audioProcessingService.js
lines 222-228); stream fields are optional because of the `?.` chains. -/
structure AudioMetadata where
  duration : Option Int
  bitRate : Option Int
  sampleRate : Option Int
  channels : Option Int
  codec : Option String
deriving DecidableEq

/-- One stream of an ffprobe report. -/
structure ProbeStream where
  codecType : String
  sampleRate : Option Int
  channels : Option Int
  codecName : Option String
deriving DecidableEq

/-- The format section of an ffprobe report. -/
structure ProbeFormat where
  duration : Option Int
  bitRate : Option Int
deriving DecidableEq

/-- A structured ffprobe report. -/
structure ProbeData where
  streams : List ProbeStream
  format : ProbeFormat
deriving DecidableEq

/-- One fluent-ffmpeg invocation as configured by the service methods:
input, output and the explicitly set per-call arguments. -/
structure FfmpegCommand where
  input : String
  output : String
  noVideo : Bool
  audioFilters : Option String
  audioCodec : Option String
  audioBitrate : Option String
  audioFrequency : Option Int
  audioChannels : Option Int
deriving DecidableEq

/-- Outcomes of the external collaborators: each field gives the result of
one kind of external invocation (`Except.error` models a thrown error or an
engine `error` event, carrying the message). A run of the pipeline is a pure
function of an oracle. -/
structure Oracle where
  mkdir : String → Except String Unit
  ytInfo : String → Except String SourceMetadata
  ytFetch : String → String → Except String Unit
  ffmpegRun : FfmpegCommand → Except String Unit
  ffprobe : String → Except String ProbeData
  unlink : String → Except String Unit

/-! ## Path and string helpers -/

/-- `path.join(dir, name)` for a directory with no trailing separator and a
relative file name, as used throughout the pipeline. -/
def pathJoin (dir name : String) : String :=
  dir ++ "/" ++ name

/-- `path.dirname` for the slash-joined paths used here: everything before
the final separator (`"."` when there is none). -/
def dirname (p : String) : String :=
  let parts := p.splitOn "/"
  if parts.length ≤ 1 then "." else String.intercalate "/" parts.dropLast

/-- A JS template-literal interpolation of a possibly-null string:
`null` prints as the literal string `"null"`. -/
def jsTemplateVal : Option String → String
  | some s => s
  | none => "null"

/-- `error.message || default`: the JS fallback fires on an empty (falsy)
message. -/
def messageOr (msg default : String) : String :=
  if msg = "" then default else msg

/-! ## FilterSpec: the filter chains built by audioProcessingService.js

Each chain entry `op=args` of the source is embedded as a `FilterStep`
whose serialization is exactly the source string; the chain argument handed
to ffmpeg is the comma-join of the serialized steps, as in the source. -/

/-- One `op=args` entry of an ffmpeg `-af` chain. -/
structure FilterStep where
  op : String
  args : String
deriving DecidableEq

/-- Serialize one step back to the source's textual form. -/
def serializeFilterStep (f : FilterStep) : String :=
  f.op ++ "=" ++ f.args

/-- The noise-reduction chain (audioProcessingService.js lines 65-70):
highpass, lowpass, afftdn (FFT denoiser), compand. -/
def noiseReductionFilterSpec (a : AudioConfig) : List FilterStep :=
  [⟨"highpass", "f=" ++ toString a.highPassFilter⟩,
   ⟨"lowpass", "f=" ++ toString a.lowPassFilter⟩,
   ⟨"afftdn", "nf=-25"⟩,
   ⟨"compand", "attacks=0.3:decays=0.8:points=-80/-80|-45/-15|-27/-9|0/-7|20/-7:soft-knee=6:gain=0:volume=-90:delay=0.2"⟩]

/-- The vocal-enhancement chain (audioProcessingService.js lines 165-172):
highpass, lowpass, afftdn, equalizer (clarity band), compand, loudnorm. -/
def vocalEnhancementFilterSpec (a : AudioConfig) : List FilterStep :=
  [⟨"highpass", "f=" ++ toString a.highPassFilter⟩,
   ⟨"lowpass", "f=" ++ toString a.lowPassFilter⟩,
   ⟨"afftdn", "nf=-20"⟩,
   ⟨"equalizer", "f=3000:width_type=h:width=1000:g=3"⟩,
   ⟨"compand", "attacks=0.3:decays=0.8:points=-80/-80|-45/-15|-27/-9|0/-7|20/-7:soft-knee=6:gain=0:volume=-90:delay=0.2"⟩,
   ⟨"loudnorm", "I=-16:TP=-1.5:LRA=11"⟩]

/-- `audioFilters.join(',')` for the noise-reduction stage. -/
def noiseReductionFilterChain (a : AudioConfig) : String :=
  String.intercalate "," ((noiseReductionFilterSpec a).map serializeFilterStep)

/-- `vocalFilters.join(',')` for the vocal-enhancement stage. -/
def vocalEnhancementFilterChain (a : AudioConfig) : String :=
  String.intercalate "," ((vocalEnhancementFilterSpec a).map serializeFilterStep)

/-! ## Service layer -/

/-- `YouTubeService.downloadAudio` (part_008 lines 16-66): ensure the output
directory exists, dump the video info, then fetch best-quality audio; any
thrown error is caught and surfaced as a `success:false` outcome whose
message falls back to a fixed phrase when the thrown message is empty. -/
def downloadAudio (o : Oracle) (videoUrl outputPath : String) : DownloadOutcome :=
  match o.mkdir (dirname outputPath) with
  | Except.error e =>
    ⟨false, none, some (messageOr e "Failed to download audio from YouTube"), none⟩
  | Except.ok _ =>
    match o.ytInfo videoUrl with
    | Except.error e =>
      ⟨false, none, some (messageOr e "Failed to download audio from YouTube"), none⟩
    | Except.ok info =>
      match o.ytFetch videoUrl outputPath with
      | Except.error e =>
        ⟨false, none, some (messageOr e "Failed to download audio from YouTube"), none⟩
      | Except.ok _ =>
        ⟨true, some outputPath, none,
         some ⟨info.title, info.duration, info.uploader, info.uploadDate, info.description⟩⟩

/-- The ffmpeg command of `extractRawAudio` (audioProcessingService.js
lines 20-25): strip video, encode canonical PCM at the configured rate and
channel count. -/
def extractCmd (cfg : Config) (inputPath outputPath : String) : FfmpegCommand :=
  ⟨inputPath, outputPath, true, none, some "pcm_s16le", none,
   some cfg.audio.sampleRate, some cfg.audio.channels⟩

/-- `AudioProcessingService.extractRawAudio` (lines 16-48). -/
def extractRawAudio (o : Oracle) (cfg : Config) (inputPath outputPath : String) : ProcResult :=
  match o.ffmpegRun (extractCmd cfg inputPath outputPath) with
  | Except.ok _ => ⟨true, some outputPath, none⟩
  | Except.error e => ⟨false, none, some e⟩

/-- The ffmpeg command of `applyNoiseReduction` (lines 72-77). -/
def noiseReductionCmd (cfg : Config) (inputPath outputPath : String) : FfmpegCommand :=
  ⟨inputPath, outputPath, false, some (noiseReductionFilterChain cfg.audio),
   some "pcm_s16le", none, some cfg.audio.sampleRate, some cfg.audio.channels⟩

/-- `AudioProcessingService.applyNoiseReduction` (lines 56-100). -/
def applyNoiseReduction (o : Oracle) (cfg : Config) (inputPath outputPath : String) : ProcResult :=
  match o.ffmpegRun (noiseReductionCmd cfg inputPath outputPath) with
  | Except.ok _ => ⟨true, some outputPath, none⟩
  | Except.error e => ⟨false, none, some e⟩

/-- The ffmpeg command of `enhanceVocals` (lines 174-179). -/
def enhanceVocalsCmd (cfg : Config) (inputPath outputPath : String) : FfmpegCommand :=
  ⟨inputPath, outputPath, false, some (vocalEnhancementFilterChain cfg.audio),
   some "pcm_s16le", none, some cfg.audio.sampleRate, some cfg.audio.channels⟩

/-- `AudioProcessingService.enhanceVocals` (lines 154-202). -/
def enhanceVocals (o : Oracle) (cfg : Config) (inputPath outputPath : String) : ProcResult :=
  match o.ffmpegRun (enhanceVocalsCmd cfg inputPath outputPath) with
  | Except.ok _ => ⟨true, some outputPath, none⟩
  | Except.error e => ⟨false, none, some e⟩

/-- The ffmpeg command of `convertFormat` (lines 246-255): codec and bitrate
depend on the requested format. -/
def convertCmd (inputPath outputPath format : String) : FfmpegCommand :=
  ⟨inputPath, outputPath, false, none,
   if format = "mp3" then some "libmp3lame"
   else if format = "wav" then some "pcm_s16le"
   else if format = "ogg" then some "libvorbis"
   else none,
   if format = "mp3" then some "192k"
   else if format = "ogg" then some "192k"
   else none,
   none, none⟩

/-- `AudioProcessingService.convertFormat` (lines 242-277). -/
def convertFormat (o : Oracle) (inputPath outputPath format : String) : ProcResult :=
  match o.ffmpegRun (convertCmd inputPath outputPath format) with
  | Except.ok _ => ⟨true, some outputPath, none⟩
  | Except.error e => ⟨false, none, some e⟩

/-- The outcome shape of `getAudioMetadata` (lines 209-233). -/
structure MetadataResult where
  success : Bool
  metadata : Option AudioMetadata
  error : Option String
deriving DecidableEq

/-- `AudioProcessingService.getAudioMetadata` (lines 209-233): on probe
success, project duration and bit rate from the format section and the
stream fields from the first audio stream, if any. -/
def getAudioMetadata (o : Oracle) (filePath : String) : MetadataResult :=
  match o.ffprobe filePath with
  | Except.error e => ⟨false, none, some e⟩
  | Except.ok pd =>
    let audioStream := pd.streams.find? fun s => s.codecType = "audio"
    ⟨true,
     some ⟨pd.format.duration, pd.format.bitRate,
           audioStream.bind (fun s => s.sampleRate),
           audioStream.bind (fun s => s.channels),
           audioStream.bind (fun s => s.codecName)⟩,
     none⟩

/-! ## Orchestrator: audioExtractionService.js (part_009) -/

/-- `results.steps` of the orchestrator's job record: one optional entry per
pipeline stage, set in stage-execution order. -/
structure Steps where
  download : Option DownloadOutcome
  extract : Option ProcResult
  noiseReduction : Option ProcResult
  vocalEnhancement : Option ProcResult
  mp3Conversion : Option ProcResult
deriving DecidableEq

/-- `results.files`: the produced file paths keyed by stage. -/
structure Files where
  raw : Option String
  extracted : Option String
  noiseReduced : Option String
  cleanVoice : Option String
  mp3 : Option String
deriving DecidableEq

/-- The `results` record embedded in mid-pipeline failure returns. -/
structure PartialResults where
  jobId : String
  videoId : Option String
  steps : Steps
  files : Files
  metadata : Option SourceMetadata
deriving DecidableEq

/-- `outputFiles` of a successful job. -/
structure OutputFiles where
  wav : String
  mp3 : Option String
deriving DecidableEq

/-- The aggregated result object of `extractAndCleanAudio` / `quickExtract`;
fields absent from a given return site are `none`. -/
structure JobResult where
  success : Bool
  error : Option String
  details : Option String
  jobId : String
  videoId : Option String
  metadata : Option SourceMetadata
  audioMetadata : Option AudioMetadata
  outputFiles : Option OutputFiles
  results : Option PartialResults
  message : Option String
deriving DecidableEq

/-- `options` of `extractAndCleanAudio`; `cleanupTemp` is absent (`none`),
`some true` or `some false`; cleanup runs unless it is exactly `false`. -/
structure Options where
  cleanupTemp : Option Bool
deriving DecidableEq

/-- One external invocation performed by a pipeline run, in order. -/
inductive Invocation where
  | mkdir (dir : String)
  | download (url outputPath : String)
  | extractRaw (inputPath outputPath : String)
  | noiseReduction (inputPath outputPath : String)
  | enhanceVocals (inputPath outputPath : String)
  | convertFormat (inputPath outputPath format : String)
  | probeMetadata (filePath : String)
  | unlink (filePath : String)
deriving DecidableEq

/-- The five job-scoped file paths (part_009 lines 43-49), derived from the
extracted video id (a null id interpolates as `"null"`) and the per-job
timestamp. -/
structure JobPaths where
  rawAudio : String
  filteredAudio : String
  enhancedAudio : String
  cleanVoice : String
  mp3Output : String
deriving DecidableEq

/-- Build the job-scoped paths exactly as part_009 lines 44-49. -/
def jobPaths (cfg : Config) (videoUrl : String) (timestamp : Nat) : JobPaths :=
  let baseFilename := jsTemplateVal (extractVideoId videoUrl) ++ "_" ++ toString timestamp
  ⟨pathJoin cfg.tempDir (baseFilename ++ "_raw.wav"),
   pathJoin cfg.tempDir (baseFilename ++ "_filtered.wav"),
   pathJoin cfg.tempDir (baseFilename ++ "_enhanced.wav"),
   pathJoin cfg.outputDir (baseFilename ++ "_clean_voice.wav"),
   pathJoin cfg.outputDir (baseFilename ++ "_clean_voice.mp3")⟩

/-- `AudioExtractionService.extractAndCleanAudio` (part_009 lines 23-190).
`jobId` stands for the drawn uuid and `timestamp` for `Date.now()`, both
taken once per job. The second component is the ordered trace of external
invocations the run performed; `fs.unlink` outcomes are ignored by the
source (logged only), so the oracle's `unlink` field is never consulted. -/
def extractAndCleanAudio (o : Oracle) (cfg : Config) (jobId : String)
    (timestamp : Nat) (videoUrl : String) (options : Options) :
    JobResult × List Invocation :=
  if isValidYouTubeUrl videoUrl = false then
    (⟨false, some "Invalid YouTube URL", none, jobId,
      none, none, none, none, none, none⟩, [])
  else
    let videoId := extractVideoId videoUrl
    let P := jobPaths cfg videoUrl timestamp
    match o.mkdir cfg.tempDir with
    | Except.error e =>
      (⟨false, some "Unexpected error during audio extraction", some e, jobId,
        none, none, none, none, none, none⟩, [Invocation.mkdir cfg.tempDir])
    | Except.ok _ =>
    match o.mkdir cfg.outputDir with
    | Except.error e =>
      (⟨false, some "Unexpected error during audio extraction", some e, jobId,
        none, none, none, none, none, none⟩,
       [Invocation.mkdir cfg.tempDir, Invocation.mkdir cfg.outputDir])
    | Except.ok _ =>
    let tr1 := [Invocation.mkdir cfg.tempDir, Invocation.mkdir cfg.outputDir,
                Invocation.download videoUrl P.rawAudio]
    let downloadResult := downloadAudio o videoUrl P.rawAudio
    let steps1 : Steps := ⟨some downloadResult, none, none, none, none⟩
    if downloadResult.success = false then
      (⟨false, some "Failed to download audio from YouTube", downloadResult.error,
        jobId, none, none, none, none, none, none⟩, tr1)
    else
    let srcMeta := downloadResult.metadata
    let files1 : Files := ⟨some P.rawAudio, none, none, none, none⟩
    let extractResult := extractRawAudio o cfg P.rawAudio P.filteredAudio
    let tr2 := tr1 ++ [Invocation.extractRaw P.rawAudio P.filteredAudio]
    let steps2 := { steps1 with extract := some extractResult }
    if extractResult.success = false then
      (⟨false, some "Failed to extract raw audio", extractResult.error, jobId,
        none, none, none, none,
        some ⟨jobId, videoId, steps2, files1, srcMeta⟩, none⟩, tr2)
    else
    let files2 := { files1 with extracted := some P.filteredAudio }
    let noiseReductionResult := applyNoiseReduction o cfg P.filteredAudio P.enhancedAudio
    let tr3 := tr2 ++ [Invocation.noiseReduction P.filteredAudio P.enhancedAudio]
    let steps3 := { steps2 with noiseReduction := some noiseReductionResult }
    if noiseReductionResult.success = false then
      (⟨false, some "Failed to apply noise reduction", noiseReductionResult.error, jobId,
        none, none, none, none,
        some ⟨jobId, videoId, steps3, files2, srcMeta⟩, none⟩, tr3)
    else
    let files3 := { files2 with noiseReduced := some P.enhancedAudio }
    let vocalEnhancementResult := enhanceVocals o cfg P.enhancedAudio P.cleanVoice
    let tr4 := tr3 ++ [Invocation.enhanceVocals P.enhancedAudio P.cleanVoice]
    let steps4 := { steps3 with vocalEnhancement := some vocalEnhancementResult }
    if vocalEnhancementResult.success = false then
      (⟨false, some "Failed to enhance vocals", vocalEnhancementResult.error, jobId,
        none, none, none, none,
        some ⟨jobId, videoId, steps4, files3, srcMeta⟩, none⟩, tr4)
    else
    let files4 := { files3 with cleanVoice := some P.cleanVoice }
    let mp3ConversionResult := convertFormat o P.cleanVoice P.mp3Output "mp3"
    let tr5 := tr4 ++ [Invocation.convertFormat P.cleanVoice P.mp3Output "mp3"]
    let files5 := if mp3ConversionResult.success then { files4 with mp3 := some P.mp3Output }
                  else files4
    let metadataResult := getAudioMetadata o P.cleanVoice
    let tr6 := tr5 ++ [Invocation.probeMetadata P.cleanVoice]
    let audioMeta := if metadataResult.success then metadataResult.metadata else none
    let tr7 := if options.cleanupTemp = some false then tr6
               else tr6 ++ [Invocation.unlink P.rawAudio,
                            Invocation.unlink P.filteredAudio,
                            Invocation.unlink P.enhancedAudio]
    (⟨true, none, none, jobId, videoId, srcMeta, audioMeta,
      some ⟨P.cleanVoice, files5.mp3⟩, none,
      some "Audio extracted and cleaned successfully"⟩, tr7)

/-- `AudioExtractionService.quickExtract` (part_009 lines 197-252):
download-only fast path, writing straight into the output directory. -/
def quickExtract (o : Oracle) (cfg : Config) (jobId : String)
    (timestamp : Nat) (videoUrl : String) : JobResult × List Invocation :=
  if isValidYouTubeUrl videoUrl = false then
    (⟨false, some "Invalid YouTube URL", none, jobId,
      none, none, none, none, none, none⟩, [])
  else
    let videoId := extractVideoId videoUrl
    let baseFilename := jsTemplateVal videoId ++ "_" ++ toString timestamp
    let outputPath := pathJoin cfg.outputDir (baseFilename ++ "_audio.wav")
    match o.mkdir cfg.outputDir with
    | Except.error e =>
      (⟨false, some "Quick extraction failed", some e, jobId,
        none, none, none, none, none, none⟩, [Invocation.mkdir cfg.outputDir])
    | Except.ok _ =>
      let downloadResult := downloadAudio o videoUrl outputPath
      let tr := [Invocation.mkdir cfg.outputDir, Invocation.download videoUrl outputPath]
      if downloadResult.success = false then
        (⟨false, some "Failed to download audio", downloadResult.error, jobId,
          none, none, none, none, none, none⟩, tr)
      else
        (⟨true, none, none, jobId, videoId, downloadResult.metadata, none,
          some ⟨outputPath, none⟩, none, some "Audio downloaded successfully"⟩, tr)

/-! ## Trace observations -/

/-- The paths whose deletion a run attempted, in order. -/
def unlinkPaths (tr : List Invocation) : List String :=
  tr.filterMap fun i =>
    match i with
    | Invocation.unlink p => some p
    | _ => none

/-- Whether an invocation is one of the five pipeline stages. -/
def isStageInvocation : Invocation → Bool
  | Invocation.download _ _ => true
  | Invocation.extractRaw _ _ => true
  | Invocation.noiseReduction _ _ => true
  | Invocation.enhanceVocals _ _ => true
  | Invocation.convertFormat _ _ _ => true
  | _ => false

/-- The stage invocations of a trace, in execution order. -/
def stageEvents (tr : List Invocation) : List Invocation :=
  tr.filter isStageInvocation

/-- The output path a stage invocation produces. -/
def stageOutput : Invocation → Option String
  | Invocation.download _ p => some p
  | Invocation.extractRaw _ p => some p
  | Invocation.noiseReduction _ p => some p
  | Invocation.enhanceVocals _ p => some p
  | Invocation.convertFormat _ p _ => some p
  | _ => none

/-- The file-input path a stage invocation consumes (the download stage
consumes the URL, not a file, and has no file input). -/
def stageFileInput : Invocation → Option String
  | Invocation.extractRaw i _ => some i
  | Invocation.noiseReduction i _ => some i
  | Invocation.enhanceVocals i _ => some i
  | Invocation.convertFormat i _ _ => some i
  | _ => none

/-- Every stage invocation after the first consumes exactly the output path
of its immediate predecessor. -/
def chainedOk : List Invocation → Bool
  | [] => true
  | [_] => true
  | a :: b :: rest =>
    (match stageOutput a, stageFileInput b with
     | some op, some ip => op == ip
     | _, _ => false) && chainedOk (b :: rest)

/-- The embedded per-stage entries of a result, when present. -/
def stepsOf (r : JobResult) : Option Steps :=
  r.results.map fun pr => pr.steps

/-! ## Concrete fixtures for witnesses and counterexamples -/

/-- The audio settings of config.js. -/
def audioX : AudioConfig := ⟨"wav", 44100, 1, 16, 80, 8000, -30⟩

/-- A concrete configuration (the directories stand for the config paths). -/
def cfgX : Config := ⟨"temp", "output", audioX⟩

/-- A concrete video-info document. -/
def infoX : SourceMetadata := ⟨"Title", 10, "Uploader", "20240101", "Desc"⟩

/-- A concrete ffprobe report with one audio stream. -/
def probeX : ProbeData :=
  ⟨[⟨"audio", some 44100, some 1, some "pcm_s16le"⟩], ⟨some 10, some 705600⟩⟩

/-- An environment in which every external invocation succeeds. -/
def okOracle : Oracle :=
  ⟨fun _ => Except.ok (), fun _ => Except.ok infoX, fun _ _ => Except.ok (),
   fun _ => Except.ok (), fun _ => Except.ok probeX, fun _ => Except.ok ()⟩

/-- A concrete valid short-link URL. -/
def urlX : String := "https://youtu.be/abc123"

/-- Environment whose audio fetch fails: the download stage fails. -/
def failDownloadOracle : Oracle :=
  { okOracle with ytFetch := fun _ _ => Except.error "network unreachable" }

/-- Environment failing exactly the raw-extraction ffmpeg run (the only
stage command with `noVideo`). -/
def failExtractOracle : Oracle :=
  { okOracle with
    ffmpegRun := fun cmd =>
      if cmd.noVideo then Except.error "extract boom" else Except.ok () }

/-- Environment failing exactly the noise-reduction ffmpeg run (identified
by its filter chain). -/
def failNoiseOracle : Oracle :=
  { okOracle with
    ffmpegRun := fun cmd =>
      if cmd.audioFilters = some (noiseReductionFilterChain audioX) then
        Except.error "noise boom"
      else Except.ok () }

/-- Environment failing exactly the vocal-enhancement ffmpeg run. -/
def failVocalOracle : Oracle :=
  { okOracle with
    ffmpegRun := fun cmd =>
      if cmd.audioFilters = some (vocalEnhancementFilterChain audioX) then
        Except.error "vocal boom"
      else Except.ok () }

/-- Environment failing exactly the MP3 conversion ffmpeg run (the only
stage command with the mp3 codec). -/
def failMp3Oracle : Oracle :=
  { okOracle with
    ffmpegRun := fun cmd =>
      if cmd.audioCodec = some "libmp3lame" then Except.error "mp3 boom"
      else Except.ok () }

/-- Environment whose metadata probe fails. -/
def failProbeOracle : Oracle :=
  { okOracle with ffprobe := fun _ => Except.error "probe boom" }

/-- Environment in which every file deletion fails. -/
def failUnlinkOracle : Oracle :=
  { okOracle with unlink := fun _ => Except.error "EPERM" }

/-- The URL driving claim C9: a watch-page URL whose `v` parameter is not
the first query parameter. -/
def urlC9 : String := "https://www.youtube.com/watch?app=desktop&v=dQw4w9WgXcQ"

/-! ## Per-stage results of a run

The orchestrator invokes each stage on fixed, job-derived paths, so the
result each stage invocation would report is a function of the environment,
the configuration, the URL and the timestamp alone. Theorems state their
stage-outcome hypotheses through these abbreviations. -/

/-- Stage 1 (download) result of a run. -/
def stage1Download (o : Oracle) (cfg : Config) (videoUrl : String) (timestamp : Nat) :
    DownloadOutcome :=
  downloadAudio o videoUrl (jobPaths cfg videoUrl timestamp).rawAudio

/-- Stage 2 (raw extraction) result of a run. -/
def stage2Extract (o : Oracle) (cfg : Config) (videoUrl : String) (timestamp : Nat) :
    ProcResult :=
  extractRawAudio o cfg (jobPaths cfg videoUrl timestamp).rawAudio
    (jobPaths cfg videoUrl timestamp).filteredAudio

/-- Stage 3 (noise reduction) result of a run. -/
def stage3Noise (o : Oracle) (cfg : Config) (videoUrl : String) (timestamp : Nat) :
    ProcResult :=
  applyNoiseReduction o cfg (jobPaths cfg videoUrl timestamp).filteredAudio
    (jobPaths cfg videoUrl timestamp).enhancedAudio

/-- Stage 4 (vocal enhancement) result of a run. -/
def stage4Vocal (o : Oracle) (cfg : Config) (videoUrl : String) (timestamp : Nat) :
    ProcResult :=
  enhanceVocals o cfg (jobPaths cfg videoUrl timestamp).enhancedAudio
    (jobPaths cfg videoUrl timestamp).cleanVoice

/-- Stage 5 (MP3 conversion) result of a run. -/
def stage5Mp3 (o : Oracle) (cfg : Config) (videoUrl : String) (timestamp : Nat) :
    ProcResult :=
  convertFormat o (jobPaths cfg videoUrl timestamp).cleanVoice
    (jobPaths cfg videoUrl timestamp).mp3Output "mp3"

/-- The final metadata probe result of a run. -/
def finalProbe (o : Oracle) (cfg : Config) (videoUrl : String) (timestamp : Nat) :
    MetadataResult :=
  getAudioMetadata o (jobPaths cfg videoUrl timestamp).cleanVoice


/-- The first-failure contract `extractAndCleanAudio` actually implements,
stage by stage: a failure of any of the four stages download,
raw-extraction, noise-reduction or vocal-enhancement halts the run with
`success:false` and a stage-tagged error, later stages are never invoked,
and the failure result embeds the stage entries produced so far — the
failing stage's own entry included, and no embedded entries at all when the
download stage fails; a failure of the final MP3 conversion stage does not
fail the job: the run continues and returns `success:true` with a null mp3
output. -/
def FirstFailureBehavior (o : Oracle) (cfg : Config) (jobId : String)
    (timestamp : Nat) (videoUrl : String) (options : Options) : Prop :=
  let R := extractAndCleanAudio o cfg jobId timestamp videoUrl options
  let P := jobPaths cfg videoUrl timestamp
  let d := stage1Download o cfg videoUrl timestamp
  let e := stage2Extract o cfg videoUrl timestamp
  let n := stage3Noise o cfg videoUrl timestamp
  let v := stage4Vocal o cfg videoUrl timestamp
  let m := stage5Mp3 o cfg videoUrl timestamp
  (d.success = false →
    R.1.success = false ∧
    R.1.error = some "Failed to download audio from YouTube" ∧
    R.1.details = d.error ∧
    R.1.results = none ∧
    stageEvents R.2 = [Invocation.download videoUrl P.rawAudio]) ∧
  (d.success = true → e.success = false →
    R.1.success = false ∧
    R.1.error = some "Failed to extract raw audio" ∧
    R.1.details = e.error ∧
    stepsOf R.1 = some ⟨some d, some e, none, none, none⟩ ∧
    stageEvents R.2 = [Invocation.download videoUrl P.rawAudio,
                       Invocation.extractRaw P.rawAudio P.filteredAudio]) ∧
  (d.success = true → e.success = true → n.success = false →
    R.1.success = false ∧
    R.1.error = some "Failed to apply noise reduction" ∧
    R.1.details = n.error ∧
    stepsOf R.1 = some ⟨some d, some e, some n, none, none⟩ ∧
    stageEvents R.2 = [Invocation.download videoUrl P.rawAudio,
                       Invocation.extractRaw P.rawAudio P.filteredAudio,
                       Invocation.noiseReduction P.filteredAudio P.enhancedAudio]) ∧
  (d.success = true → e.success = true → n.success = true → v.success = false →
    R.1.success = false ∧
    R.1.error = some "Failed to enhance vocals" ∧
    R.1.details = v.error ∧
    stepsOf R.1 = some ⟨some d, some e, some n, some v, none⟩ ∧
    stageEvents R.2 = [Invocation.download videoUrl P.rawAudio,
                       Invocation.extractRaw P.rawAudio P.filteredAudio,
                       Invocation.noiseReduction P.filteredAudio P.enhancedAudio,
                       Invocation.enhanceVocals P.enhancedAudio P.cleanVoice]) ∧
  (d.success = true → e.success = true → n.success = true → v.success = true →
   m.success = false →
    R.1.success = true ∧
    R.1.outputFiles = some ⟨P.cleanVoice, none⟩ ∧
    stageEvents R.2 = [Invocation.download videoUrl P.rawAudio,
                       Invocation.extractRaw P.rawAudio P.filteredAudio,
                       Invocation.noiseReduction P.filteredAudio P.enhancedAudio,
                       Invocation.enhanceVocals P.enhancedAudio P.cleanVoice,
                       Invocation.convertFormat P.cleanVoice P.mp3Output "mp3"])

/-- The cleanup contract `extractAndCleanAudio` actually implements: when
the job succeeds and cleanup is enabled, the deletions attempted are
exactly the three temp-directory intermediates (the final WAV and MP3 are
never among them); with `cleanupTemp:false` nothing is deleted; when the
job fails, cleanup is skipped entirely and nothing is deleted; and the
outcome of every deletion attempt is ignored — replacing the environment's
`unlink` behavior changes neither the result nor the trace. -/
def CleanupBehavior (o : Oracle) (cfg : Config) (jobId : String)
    (timestamp : Nat) (videoUrl : String) (options : Options) : Prop :=
  let R := extractAndCleanAudio o cfg jobId timestamp videoUrl options
  let P := jobPaths cfg videoUrl timestamp
  (R.1.success = true → options.cleanupTemp ≠ some false →
    unlinkPaths R.2 = [P.rawAudio, P.filteredAudio, P.enhancedAudio]) ∧
  (options.cleanupTemp = some false → unlinkPaths R.2 = []) ∧
  (R.1.success = false → unlinkPaths R.2 = []) ∧
  (∀ u, extractAndCleanAudio { o with unlink := u } cfg jobId timestamp videoUrl options = R)

/-- An everywhere-failing message helper is never empty. -/
theorem messageOr_ne_empty (e d : String) (hd : d ≠ "") : messageOr e d ≠ "" := by
  unfold messageOr
  split
  · exact hd
  · assumption

/-! ## Claim theorems -/

/-- C4: the filter chain built for the noise-reduction stage is exactly, in
order: high-pass, low-pass, spectral (FFT) denoiser `afftdn`, dynamics
compander; the chain built for the vocal-enhancement stage is exactly, in
order: high-pass, low-pass, spectral denoiser, clarity-band `equalizer`,
dynamics compander, `loudnorm` loudness normalization — for every parameter
configuration. -/
theorem filter_chain_order (a : AudioConfig) :
    (noiseReductionFilterSpec a).map FilterStep.op =
      ["highpass", "lowpass", "afftdn", "compand"] ∧
    (vocalEnhancementFilterSpec a).map FilterStep.op =
      ["highpass", "lowpass", "afftdn", "equalizer", "compand", "loudnorm"] :=
  ⟨rfl, rfl⟩

/-- C6: `isValidYouTubeUrl` returns true for exactly the strings matching
one of the two accepted reference-pattern families — the canonical
watch-page / short-link family (pattern 1) and the watch-page-with-query
family (pattern 2); every string matching neither is rejected. -/
theorem isValidYouTubeUrl_iff_patterns (url : String) :
    isValidYouTubeUrl url = true ↔
      (matchesPattern1 url = true ∨ matchesPattern2 url = true) := by
  simp [isValidYouTubeUrl]

/-- C7: `downloadAudio` never throws: for every environment, every failure
of the download engine (directory creation, metadata dump or audio fetch)
surfaces as a `success:false` outcome carrying a nonempty human-readable
error message, and every success carries `success:true`, the destination
file path and the source metadata. -/
theorem downloadAudio_never_throws (o : Oracle) (videoUrl outputPath : String) :
    ((downloadAudio o videoUrl outputPath).success = true ∧
     (downloadAudio o videoUrl outputPath).filePath = some outputPath ∧
     (downloadAudio o videoUrl outputPath).error = none ∧
     (downloadAudio o videoUrl outputPath).metadata ≠ none) ∨
    ((downloadAudio o videoUrl outputPath).success = false ∧
     ∃ m, (downloadAudio o videoUrl outputPath).error = some m ∧ m ≠ "") := by
  unfold downloadAudio
  rcases o.mkdir (dirname outputPath) with e | u
  · exact Or.inr ⟨rfl, messageOr e "Failed to download audio from YouTube", rfl,
      messageOr_ne_empty e _ (by decide)⟩
  · rcases o.ytInfo videoUrl with e | info
    · exact Or.inr ⟨rfl, messageOr e "Failed to download audio from YouTube", rfl,
        messageOr_ne_empty e _ (by decide)⟩
    · rcases o.ytFetch videoUrl outputPath with e | u2
      · exact Or.inr ⟨rfl, messageOr e "Failed to download audio from YouTube", rfl,
          messageOr_ne_empty e _ (by decide)⟩
      · exact Or.inl ⟨rfl, rfl, rfl, by simp⟩

/-- C3: an input rejected by `isValidYouTubeUrl` makes `extractAndCleanAudio`
and `quickExtract` return immediately with the invalid-input failure
result; the empty invocation trace shows that no pipeline stage is invoked
and no file or directory is created. -/
theorem invalid_url_rejected (o : Oracle) (cfg : Config) (jobId : String)
    (timestamp : Nat) (videoUrl : String) (options : Options)
    (hv : isValidYouTubeUrl videoUrl = false) :
    extractAndCleanAudio o cfg jobId timestamp videoUrl options =
      (⟨false, some "Invalid YouTube URL", none, jobId,
        none, none, none, none, none, none⟩, []) ∧
    quickExtract o cfg jobId timestamp videoUrl =
      (⟨false, some "Invalid YouTube URL", none, jobId,
        none, none, none, none, none, none⟩, []) := by
  constructor
  · unfold extractAndCleanAudio
    simp [hv]
  · unfold quickExtract
    simp [hv]

/-- C3 witness: a concrete rejected URL takes the invalid-input path in
both entry points. -/
theorem invalid_url_rejected_witness :
    isValidYouTubeUrl "https://vimeo.com/123456" = false ∧
    extractAndCleanAudio okOracle cfgX "job-1" 0 "https://vimeo.com/123456" ⟨none⟩ =
      (⟨false, some "Invalid YouTube URL", none, "job-1",
        none, none, none, none, none, none⟩, []) ∧
    quickExtract okOracle cfgX "job-1" 0 "https://vimeo.com/123456" =
      (⟨false, some "Invalid YouTube URL", none, "job-1",
        none, none, none, none, none, none⟩, []) :=
  ⟨by decide,
   (invalid_url_rejected okOracle cfgX "job-1" 0 "https://vimeo.com/123456" ⟨none⟩ (by decide)).1,
   (invalid_url_rejected okOracle cfgX "job-1" 0 "https://vimeo.com/123456" ⟨none⟩ (by decide)).2⟩

/-- C9: the watch-page URL `urlC9`, whose `v` parameter is not the first
query parameter, is accepted by validation (it matches only the second
pattern), yet `extractVideoId` returns null; the pipeline nevertheless
proceeds and builds every job file name with the literal string `"null"`
as the source identifier. -/
theorem null_video_id_still_runs :
    isValidYouTubeUrl urlC9 = true ∧
    matchesPattern1 urlC9 = false ∧
    matchesPattern2 urlC9 = true ∧
    extractVideoId urlC9 = none ∧
    (extractAndCleanAudio okOracle cfgX "job-1" 0 urlC9 ⟨none⟩).1.success = true ∧
    (extractAndCleanAudio okOracle cfgX "job-1" 0 urlC9 ⟨none⟩).1.outputFiles =
      some ⟨"output/null_0_clean_voice.wav", some "output/null_0_clean_voice.mp3"⟩ ∧
    stageEvents (extractAndCleanAudio okOracle cfgX "job-1" 0 urlC9 ⟨none⟩).2 =
      [Invocation.download urlC9 "temp/null_0_raw.wav",
       Invocation.extractRaw "temp/null_0_raw.wav" "temp/null_0_filtered.wav",
       Invocation.noiseReduction "temp/null_0_filtered.wav" "temp/null_0_enhanced.wav",
       Invocation.enhanceVocals "temp/null_0_enhanced.wav" "output/null_0_clean_voice.wav",
       Invocation.convertFormat "output/null_0_clean_voice.wav"
         "output/null_0_clean_voice.mp3" "mp3"] := by
  decide

/-- C10: if every pipeline stage succeeds but the final metadata probe of
the clean WAV fails, `extractAndCleanAudio` still returns `success:true`
with the `audioMetadata` field absent; a probe failure never changes the
job's success verdict. -/
theorem metadata_probe_failure_keeps_success (o : Oracle) (cfg : Config)
    (jobId : String) (timestamp : Nat) (videoUrl : String) (options : Options)
    (hv : isValidYouTubeUrl videoUrl = true)
    (hm1 : o.mkdir cfg.tempDir = Except.ok ())
    (hm2 : o.mkdir cfg.outputDir = Except.ok ())
    (hd : (stage1Download o cfg videoUrl timestamp).success = true)
    (he : (stage2Extract o cfg videoUrl timestamp).success = true)
    (hn : (stage3Noise o cfg videoUrl timestamp).success = true)
    (hvo : (stage4Vocal o cfg videoUrl timestamp).success = true)
    (hm3 : (stage5Mp3 o cfg videoUrl timestamp).success = true)
    (hp : (finalProbe o cfg videoUrl timestamp).success = false) :
    (extractAndCleanAudio o cfg jobId timestamp videoUrl options).1.success = true ∧
    (extractAndCleanAudio o cfg jobId timestamp videoUrl options).1.audioMetadata = none ∧
    (extractAndCleanAudio o cfg jobId timestamp videoUrl options).1.outputFiles =
      some ⟨(jobPaths cfg videoUrl timestamp).cleanVoice,
            some (jobPaths cfg videoUrl timestamp).mp3Output⟩ := by
  unfold stage1Download stage2Extract stage3Noise stage4Vocal stage5Mp3 finalProbe at *
  unfold extractAndCleanAudio
  simp [hv, hm1, hm2, hd, he, hn, hvo, hm3, hp]

/-- C10 witness: a concrete run in which all five stages succeed and only
the probe fails still succeeds, without audio metadata. -/
theorem metadata_probe_failure_keeps_success_witness :
    (extractAndCleanAudio failProbeOracle cfgX "job-1" 0 urlX ⟨none⟩).1.success = true ∧
    (extractAndCleanAudio failProbeOracle cfgX "job-1" 0 urlX ⟨none⟩).1.audioMetadata = none ∧
    (extractAndCleanAudio failProbeOracle cfgX "job-1" 0 urlX ⟨none⟩).1.outputFiles =
      some ⟨(jobPaths cfgX urlX 0).cleanVoice, some (jobPaths cfgX urlX 0).mp3Output⟩ :=
  metadata_probe_failure_keeps_success failProbeOracle cfgX "job-1" 0 urlX ⟨none⟩
    (by decide) rfl rfl (by decide) (by decide) (by decide) (by decide) (by decide) (by decide)

/-- C5: in every run of `extractAndCleanAudio`, the stage invocations of the
trace are chained: each stage after the first consumes exactly the output
path of its immediate predecessor (download output feeds raw extraction,
whose output feeds noise reduction, then vocal enhancement, then format
conversion); no stage consumes the output of an earlier stage. -/
theorem stage_dependency_chain (o : Oracle) (cfg : Config) (jobId : String)
    (timestamp : Nat) (videoUrl : String) (options : Options) :
    chainedOk (stageEvents
      (extractAndCleanAudio o cfg jobId timestamp videoUrl options).2) = true := by
  unfold extractAndCleanAudio
  by_cases hv : isValidYouTubeUrl videoUrl = false
  · simp [hv, stageEvents, chainedOk]
  · rcases hm1 : o.mkdir cfg.tempDir with e1 | u1
    · simp [hv, hm1, stageEvents, isStageInvocation, chainedOk]
    · rcases hm2 : o.mkdir cfg.outputDir with e2 | u2
      · simp [hv, hm1, hm2, stageEvents, isStageInvocation, chainedOk]
      · by_cases hd : (downloadAudio o videoUrl
            (jobPaths cfg videoUrl timestamp).rawAudio).success = false
        · simp [hv, hm1, hm2, hd, stageEvents, isStageInvocation, chainedOk,
            stageOutput, stageFileInput]
        · by_cases he : (extractRawAudio o cfg (jobPaths cfg videoUrl timestamp).rawAudio
              (jobPaths cfg videoUrl timestamp).filteredAudio).success = false
          · simp [hv, hm1, hm2, hd, he, stageEvents, isStageInvocation, chainedOk,
              stageOutput, stageFileInput]
          · by_cases hn : (applyNoiseReduction o cfg
                (jobPaths cfg videoUrl timestamp).filteredAudio
                (jobPaths cfg videoUrl timestamp).enhancedAudio).success = false
            · simp [hv, hm1, hm2, hd, he, hn, stageEvents, isStageInvocation, chainedOk,
                stageOutput, stageFileInput]
            · by_cases hvo : (enhanceVocals o cfg
                  (jobPaths cfg videoUrl timestamp).enhancedAudio
                  (jobPaths cfg videoUrl timestamp).cleanVoice).success = false
              · simp [hv, hm1, hm2, hd, he, hn, hvo, stageEvents, isStageInvocation,
                  chainedOk, stageOutput, stageFileInput]
              · by_cases hc : options.cleanupTemp = some false
                · simp [hv, hm1, hm2, hd, he, hn, hvo, hc, stageEvents, isStageInvocation,
                    chainedOk, stageOutput, stageFileInput]
                · simp [hv, hm1, hm2, hd, he, hn, hvo, hc, stageEvents, isStageInvocation,
                    chainedOk, stageOutput, stageFileInput]

/-- C8: for a full-pipeline job whose reference yields a video id, the five
job paths are the temp-directory intermediates
`{sourceId}_{timestampMillis}_{raw|filtered|enhanced}.wav` and the
output-directory deliverables `{sourceId}_{timestampMillis}_clean_voice.wav`
and `.mp3`, with the timestamp taken once per job; a completed run invokes
its stages on exactly these paths and reports the two deliverables. -/
theorem job_file_naming (o : Oracle) (cfg : Config) (jobId : String)
    (timestamp : Nat) (videoUrl : String) (options : Options) (vid : String)
    (hv : isValidYouTubeUrl videoUrl = true)
    (hid : extractVideoId videoUrl = some vid)
    (hm1 : o.mkdir cfg.tempDir = Except.ok ())
    (hm2 : o.mkdir cfg.outputDir = Except.ok ())
    (hd : (stage1Download o cfg videoUrl timestamp).success = true)
    (he : (stage2Extract o cfg videoUrl timestamp).success = true)
    (hn : (stage3Noise o cfg videoUrl timestamp).success = true)
    (hvo : (stage4Vocal o cfg videoUrl timestamp).success = true)
    (hm3 : (stage5Mp3 o cfg videoUrl timestamp).success = true) :
    jobPaths cfg videoUrl timestamp =
      ⟨pathJoin cfg.tempDir (vid ++ "_" ++ toString timestamp ++ "_raw.wav"),
       pathJoin cfg.tempDir (vid ++ "_" ++ toString timestamp ++ "_filtered.wav"),
       pathJoin cfg.tempDir (vid ++ "_" ++ toString timestamp ++ "_enhanced.wav"),
       pathJoin cfg.outputDir (vid ++ "_" ++ toString timestamp ++ "_clean_voice.wav"),
       pathJoin cfg.outputDir (vid ++ "_" ++ toString timestamp ++ "_clean_voice.mp3")⟩ ∧
    stageEvents (extractAndCleanAudio o cfg jobId timestamp videoUrl options).2 =
      [Invocation.download videoUrl (jobPaths cfg videoUrl timestamp).rawAudio,
       Invocation.extractRaw (jobPaths cfg videoUrl timestamp).rawAudio
         (jobPaths cfg videoUrl timestamp).filteredAudio,
       Invocation.noiseReduction (jobPaths cfg videoUrl timestamp).filteredAudio
         (jobPaths cfg videoUrl timestamp).enhancedAudio,
       Invocation.enhanceVocals (jobPaths cfg videoUrl timestamp).enhancedAudio
         (jobPaths cfg videoUrl timestamp).cleanVoice,
       Invocation.convertFormat (jobPaths cfg videoUrl timestamp).cleanVoice
         (jobPaths cfg videoUrl timestamp).mp3Output "mp3"] ∧
    (extractAndCleanAudio o cfg jobId timestamp videoUrl options).1.outputFiles =
      some ⟨(jobPaths cfg videoUrl timestamp).cleanVoice,
            some (jobPaths cfg videoUrl timestamp).mp3Output⟩ := by
  unfold stage1Download stage2Extract stage3Noise stage4Vocal stage5Mp3 at *
  refine ⟨by simp [jobPaths, hid, jsTemplateVal], ?_, ?_⟩
  · unfold extractAndCleanAudio
    by_cases hc : options.cleanupTemp = some false <;>
      simp [hv, hm1, hm2, hd, he, hn, hvo, hm3, hc, stageEvents, isStageInvocation]
  · unfold extractAndCleanAudio
    simp [hv, hm1, hm2, hd, he, hn, hvo, hm3]

/-- C8 witness: a concrete completed job with video id `abc123` and
timestamp 0 produces exactly the convention's names. -/
theorem job_file_naming_witness :
    (jobPaths cfgX urlX 0 =
      ⟨pathJoin cfgX.tempDir ("abc123" ++ "_" ++ toString (0 : Nat) ++ "_raw.wav"),
       pathJoin cfgX.tempDir ("abc123" ++ "_" ++ toString (0 : Nat) ++ "_filtered.wav"),
       pathJoin cfgX.tempDir ("abc123" ++ "_" ++ toString (0 : Nat) ++ "_enhanced.wav"),
       pathJoin cfgX.outputDir ("abc123" ++ "_" ++ toString (0 : Nat) ++ "_clean_voice.wav"),
       pathJoin cfgX.outputDir ("abc123" ++ "_" ++ toString (0 : Nat) ++ "_clean_voice.mp3")⟩ ∧
    stageEvents (extractAndCleanAudio okOracle cfgX "job-1" 0 urlX ⟨none⟩).2 =
      [Invocation.download urlX (jobPaths cfgX urlX 0).rawAudio,
       Invocation.extractRaw (jobPaths cfgX urlX 0).rawAudio (jobPaths cfgX urlX 0).filteredAudio,
       Invocation.noiseReduction (jobPaths cfgX urlX 0).filteredAudio
         (jobPaths cfgX urlX 0).enhancedAudio,
       Invocation.enhanceVocals (jobPaths cfgX urlX 0).enhancedAudio
         (jobPaths cfgX urlX 0).cleanVoice,
       Invocation.convertFormat (jobPaths cfgX urlX 0).cleanVoice
         (jobPaths cfgX urlX 0).mp3Output "mp3"] ∧
    (extractAndCleanAudio okOracle cfgX "job-1" 0 urlX ⟨none⟩).1.outputFiles =
      some ⟨(jobPaths cfgX urlX 0).cleanVoice, some (jobPaths cfgX urlX 0).mp3Output⟩) :=
  job_file_naming okOracle cfgX "job-1" 0 urlX ⟨none⟩ "abc123"
    (by decide) (by decide) rfl rfl (by decide) (by decide) (by decide) (by decide) (by decide)

/-- C1 (amended): the first-failure behavior the code implements — halting
with `success:false`, a stage-tagged error and no later stage invocation
for the four early stages, with the failure result embedding entries for
stages 1..k (not 1..k-1), none at all for a download failure, and with an
MP3-stage failure leaving the job successful. -/
theorem first_failure_halts (o : Oracle) (cfg : Config) (jobId : String)
    (timestamp : Nat) (videoUrl : String) (options : Options)
    (hv : isValidYouTubeUrl videoUrl = true)
    (hm1 : o.mkdir cfg.tempDir = Except.ok ())
    (hm2 : o.mkdir cfg.outputDir = Except.ok ()) :
    FirstFailureBehavior o cfg jobId timestamp videoUrl options := by
  unfold FirstFailureBehavior stage1Download stage2Extract stage3Noise stage4Vocal stage5Mp3
  refine ⟨?_, ?_, ?_, ?_, ?_⟩
  · intro hd
    unfold extractAndCleanAudio
    simp [hv, hm1, hm2, hd, stageEvents, isStageInvocation]
  · intro hd he
    unfold extractAndCleanAudio
    simp [hv, hm1, hm2, hd, he, stageEvents, isStageInvocation, stepsOf]
  · intro hd he hn
    unfold extractAndCleanAudio
    simp [hv, hm1, hm2, hd, he, hn, stageEvents, isStageInvocation, stepsOf]
  · intro hd he hn hvo
    unfold extractAndCleanAudio
    simp [hv, hm1, hm2, hd, he, hn, hvo, stageEvents, isStageInvocation, stepsOf]
  · intro hd he hn hvo hm3
    unfold extractAndCleanAudio
    by_cases hc : options.cleanupTemp = some false <;>
      simp [hv, hm1, hm2, hd, he, hn, hvo, hm3, hc, stageEvents, isStageInvocation]

/-- C1 counterexample: the claim as stated fails on the code at two
concrete runs. First, when the MP3 format-conversion stage is the first to
fail, the job still returns `success:true` (with a null mp3 output), not
`success:false`. Second, when raw extraction (stage 2) is the first to
fail, the failure result embeds the failing stage's own entry, not entries
for stages `1..k-1` only. -/
theorem first_failure_halts_cex :
    ((stage5Mp3 failMp3Oracle cfgX urlX 0).success = false ∧
     (extractAndCleanAudio failMp3Oracle cfgX "job-1" 0 urlX ⟨none⟩).1.success = true ∧
     (extractAndCleanAudio failMp3Oracle cfgX "job-1" 0 urlX ⟨none⟩).1.outputFiles =
       some ⟨"output/abc123_0_clean_voice.wav", none⟩) ∧
    ((stage2Extract failExtractOracle cfgX urlX 0).success = false ∧
     (extractAndCleanAudio failExtractOracle cfgX "job-1" 0 urlX ⟨none⟩).1.success = false ∧
     ((stepsOf (extractAndCleanAudio failExtractOracle cfgX "job-1" 0 urlX ⟨none⟩).1).bind
        Steps.extract) = some ⟨false, none, some "extract boom"⟩) := by
  decide

/-- C1 witness: the amended contract instantiated at a run whose raw
extraction fails. -/
theorem first_failure_halts_witness :
    FirstFailureBehavior failExtractOracle cfgX "job-1" 0 urlX ⟨none⟩ :=
  first_failure_halts failExtractOracle cfgX "job-1" 0 urlX ⟨none⟩ (by decide) rfl rfl

/-- Full characterization of the deletions a run attempts: exactly the
three temp-directory intermediates when the run ends successfully with
cleanup enabled, and nothing otherwise. -/
theorem cleanup_unlinks (o : Oracle) (cfg : Config) (jobId : String)
    (timestamp : Nat) (videoUrl : String) (options : Options) :
    unlinkPaths (extractAndCleanAudio o cfg jobId timestamp videoUrl options).2 =
      if (extractAndCleanAudio o cfg jobId timestamp videoUrl options).1.success = true ∧
         options.cleanupTemp ≠ some false then
        [(jobPaths cfg videoUrl timestamp).rawAudio,
         (jobPaths cfg videoUrl timestamp).filteredAudio,
         (jobPaths cfg videoUrl timestamp).enhancedAudio]
      else [] := by
  unfold extractAndCleanAudio
  by_cases hv : isValidYouTubeUrl videoUrl = false
  · simp [hv, unlinkPaths]
  · rcases hm1 : o.mkdir cfg.tempDir with e1 | u1
    · simp [hv, hm1, unlinkPaths]
    · rcases hm2 : o.mkdir cfg.outputDir with e2 | u2
      · simp [hv, hm1, hm2, unlinkPaths]
      · by_cases hd : (downloadAudio o videoUrl
            (jobPaths cfg videoUrl timestamp).rawAudio).success = false
        · simp [hv, hm1, hm2, hd, unlinkPaths]
        · by_cases he : (extractRawAudio o cfg (jobPaths cfg videoUrl timestamp).rawAudio
              (jobPaths cfg videoUrl timestamp).filteredAudio).success = false
          · simp [hv, hm1, hm2, hd, he, unlinkPaths]
          · by_cases hn : (applyNoiseReduction o cfg
                (jobPaths cfg videoUrl timestamp).filteredAudio
                (jobPaths cfg videoUrl timestamp).enhancedAudio).success = false
            · simp [hv, hm1, hm2, hd, he, hn, unlinkPaths]
            · by_cases hvo : (enhanceVocals o cfg
                  (jobPaths cfg videoUrl timestamp).enhancedAudio
                  (jobPaths cfg videoUrl timestamp).cleanVoice).success = false
              · simp [hv, hm1, hm2, hd, he, hn, hvo, unlinkPaths]
              · by_cases hc : options.cleanupTemp = some false
                · simp [hv, hm1, hm2, hd, he, hn, hvo, hc, unlinkPaths]
                · simp [hv, hm1, hm2, hd, he, hn, hvo, hc, unlinkPaths]

/-- C2 (amended): cleanup deletes exactly the intermediates and only at
successful finalization — a failed job skips cleanup entirely; deletion
outcomes never change the job's result, and `cleanupTemp:false` disables
all deletion. -/
theorem cleanup_behavior (o : Oracle) (cfg : Config) (jobId : String)
    (timestamp : Nat) (videoUrl : String) (options : Options) :
    CleanupBehavior o cfg jobId timestamp videoUrl options := by
  unfold CleanupBehavior
  refine ⟨?_, ?_, ?_, fun u => ?_⟩
  · intro hs hc
    rw [cleanup_unlinks]
    simp [hs, hc]
  · intro hc
    rw [cleanup_unlinks]
    simp [hc]
  · intro hs
    rw [cleanup_unlinks]
    simp [hs]
  · cases o
    rfl

/-- C2 counterexample: with cleanup enabled (`cleanupTemp:true`) and a run
whose raw-extraction stage fails after the download produced the raw
intermediate, the job finalizes as a failure and no deletion is attempted
at all — intermediates are not removed "regardless of outcome". -/
theorem cleanup_behavior_cex :
    (stage1Download failExtractOracle cfgX urlX 0).success = true ∧
    (extractAndCleanAudio failExtractOracle cfgX "job-1" 0 urlX ⟨some true⟩).1.success = false ∧
    unlinkPaths (extractAndCleanAudio failExtractOracle cfgX "job-1" 0 urlX ⟨some true⟩).2 = [] := by
  decide

/-- C2 witness: the amended cleanup contract instantiated at a concrete
all-success run with default options and failing deletions. -/
theorem cleanup_behavior_witness :
    CleanupBehavior failUnlinkOracle cfgX "job-1" 0 urlX ⟨none⟩ :=
  cleanup_behavior failUnlinkOracle cfgX "job-1" 0 urlX ⟨none⟩

end AudioPipeline
